import Mathlib

namespace OicDashboard

/-- Month timestamps (always first-of-month in the code) are represented as an
absolute month index: year 2024 month 1 is `mkMonth 2024 1 = 12*2024`. -/
def mkMonth (y m : ℕ) : ℕ := 12 * y + (m - 1)

/-- Model of `pd.date_range(start, end, freq='MS')`: every month from `s` to `e`
inclusive, empty when `e < s`. -/
def monthRange (s e : ℕ) : List ℕ := (List.range (e + 1 - s)).map (s + ·)

/-- One row of `assets/oic_dashboard.csv` after `get_data()` (the columns used by
`home_page` and `Litigation_analysis_page`). -/
structure OicRow where
  year_month : ℕ
  representation_status : String
  claims_volume : ℚ
  settlement_volume : ℚ
  total_settlement_value : ℚ
  exit_court : ℚ
deriving DecidableEq

/-- One row of the grouped frame in `home_page`'s combined branch. -/
structure MonthAgg where
  year_month : ℕ
  claims_volume : ℚ
  settlement_volume : ℚ
  total_settlement_value : ℚ
deriving DecidableEq

/-- A grouped row plus the derived `weighted_avg_settlement` column. -/
structure AggRow where
  year_month : ℕ
  claims_volume : ℚ
  settlement_volume : ℚ
  total_settlement_value : ℚ
  weighted_avg_settlement : ℚ
deriving DecidableEq

/-- The distinct `year_month` keys of a row set.  `df.groupby` also sorts its
keys; the sort is omitted here because every consumer below either reindexes
the grouped frame onto an explicit month grid (which fixes the order) or is
order-insensitive. -/
def monthsOf (rows : List OicRow) : List ℕ := (rows.map (·.year_month)).dedup

/-- The per-month sums of the three additive metrics (the row the groupby
produces for key `m`; all-zero when no row has month `m`). -/
def monthTotals (rows : List OicRow) (m : ℕ) : MonthAgg :=
  let grp := rows.filter (fun r => decide (r.year_month = m))
  { year_month := m
    claims_volume := (grp.map (·.claims_volume)).sum
    settlement_volume := (grp.map (·.settlement_volume)).sum
    total_settlement_value := (grp.map (·.total_settlement_value)).sum }

/-- `df.groupby('year_month').agg({... 'sum'})` from `home_page` (combined branch). -/
def groupByMonth (rows : List OicRow) : List MonthAgg :=
  (monthsOf rows).map (monthTotals rows)

/-- `filtered_df[(ym >= start) & (ym <= end)]` on the grouped frame. -/
def windowFilterAgg (xs : List MonthAgg) (s e : ℕ) : List MonthAgg :=
  xs.filter (fun r => decide (s ≤ r.year_month ∧ r.year_month ≤ e))

/-- `set_index('year_month').reindex(date_range, fill_value=0).reset_index()`:
one output row per grid month, taking the grouped row when present and a
zero-filled row otherwise. -/
def reindexMonths (xs : List MonthAgg) (s e : ℕ) : List MonthAgg :=
  (monthRange s e).map fun m =>
    match xs.find? (fun r => decide (r.year_month = m)) with
    | some r =>
      { year_month := m
        claims_volume := r.claims_volume
        settlement_volume := r.settlement_volume
        total_settlement_value := r.total_settlement_value }
    | none =>
      { year_month := m
        claims_volume := 0
        settlement_volume := 0
        total_settlement_value := 0 }

/-- The `weighted_avg_settlement` apply-lambda of `home_page`:
`tsv / sv if sv > 0 else 0`. -/
def addWeightedAvg (r : MonthAgg) : AggRow :=
  { year_month := r.year_month
    claims_volume := r.claims_volume
    settlement_volume := r.settlement_volume
    total_settlement_value := r.total_settlement_value
    weighted_avg_settlement :=
      if r.settlement_volume > 0 then r.total_settlement_value / r.settlement_volume else 0 }

/-- `home_page`, combined branch (lines 324-337): group all rows by month,
window-filter the grouped frame, reindex onto the full month grid with zero
fill, then derive `weighted_avg_settlement`. -/
def combinedSeries (rows : List OicRow) (s e : ℕ) : List AggRow :=
  (reindexMonths (windowFilterAgg (groupByMonth rows) s e) s e).map addWeightedAvg

/-- Second definition for the refinement claim, following the spec's step
order (4.2 steps 2 then 4 then 5): window-filter the raw rows first, then
group by month, then reindex onto the grid. -/
def combinedSeriesFilterFirst (rows : List OicRow) (s e : ℕ) : List AggRow :=
  (reindexMonths
    (groupByMonth (rows.filter (fun r => decide (s ≤ r.year_month ∧ r.year_month ≤ e)))) s e).map
    addWeightedAvg

/-- One row of the grouped frame in `home_page`'s category branch. -/
structure CatAgg where
  year_month : ℕ
  representation_status : String
  claims_volume : ℚ
  settlement_volume : ℚ
  total_settlement_value : ℚ
deriving DecidableEq

/-- A grouped category row plus the derived `weighted_avg_settlement`. -/
structure CatAggRow where
  year_month : ℕ
  representation_status : String
  claims_volume : ℚ
  settlement_volume : ℚ
  total_settlement_value : ℚ
  weighted_avg_settlement : ℚ
deriving DecidableEq

/-- The per-`(month, category)` sums (the groupby row for key `k`). -/
def catTotals (rows : List OicRow) (k : ℕ × String) : CatAgg :=
  let grp := rows.filter
    (fun r => decide (r.year_month = k.1 ∧ r.representation_status = k.2))
  { year_month := k.1
    representation_status := k.2
    claims_volume := (grp.map (·.claims_volume)).sum
    settlement_volume := (grp.map (·.settlement_volume)).sum
    total_settlement_value := (grp.map (·.total_settlement_value)).sum }

/-- The distinct `(year_month, representation_status)` keys (see `monthsOf`
for why the groupby key sort is omitted). -/
def monthCatKeysOf (rows : List OicRow) : List (ℕ × String) :=
  (rows.map (fun r => (r.year_month, r.representation_status))).dedup

/-- `groupby(['year_month', 'representation_status']).agg({... 'sum'})`. -/
def groupByMonthCat (rows : List OicRow) : List CatAgg :=
  (monthCatKeysOf rows).map (catTotals rows)

/-- `MultiIndex.from_product([date_range, selected_rep])` followed by
`set_index(...).reindex(full_index, fill_value=0).reset_index()`. -/
def reindexGrid (xs : List CatAgg) (s e : ℕ) (sel : List String) : List CatAgg :=
  (monthRange s e).flatMap fun m =>
    sel.map fun c =>
      match xs.find?
        (fun r => decide (r.year_month = m ∧ r.representation_status = c)) with
      | some r =>
        { year_month := m
          representation_status := c
          claims_volume := r.claims_volume
          settlement_volume := r.settlement_volume
          total_settlement_value := r.total_settlement_value }
      | none =>
        { year_month := m
          representation_status := c
          claims_volume := 0
          settlement_volume := 0
          total_settlement_value := 0 }

/-- The `weighted_avg_settlement` apply-lambda on the category-grouped frame. -/
def addWeightedAvgCat (r : CatAgg) : CatAggRow :=
  { year_month := r.year_month
    representation_status := r.representation_status
    claims_volume := r.claims_volume
    settlement_volume := r.settlement_volume
    total_settlement_value := r.total_settlement_value
    weighted_avg_settlement :=
      if r.settlement_volume > 0 then r.total_settlement_value / r.settlement_volume else 0 }

/-- `home_page`, category branch (lines 339-354): keep rows whose
`representation_status` is selected, window-filter, group by
`(year_month, representation_status)`, reindex onto the month x category
grid with zero fill, then derive `weighted_avg_settlement`. -/
def catSeries (rows : List OicRow) (sel : List String) (s e : ℕ) : List CatAggRow :=
  (reindexGrid
    (groupByMonthCat
      ((rows.filter (fun r => decide (sel.contains r.representation_status = true))).filter
        (fun r => decide (s ≤ r.year_month ∧ r.year_month ≤ e))))
    s e sel).map addWeightedAvgCat

/-- One row of the grouped frame in `Litigation_analysis_page`'s combined
branch, after the `litigation_pct` apply-lambda. -/
structure LitAgg where
  year_month : ℕ
  settlement_volume : ℚ
  exit_court : ℚ
  litigation_pct : ℚ
deriving DecidableEq

/-- The per-month sums plus `litigation_pct = ec / (ec + sv) if ec + sv > 0
else 0` (lines 543-549). -/
def litTotals (rows : List OicRow) (m : ℕ) : LitAgg :=
  let grp := rows.filter (fun r => decide (r.year_month = m))
  let sv := (grp.map (·.settlement_volume)).sum
  let ec := (grp.map (·.exit_court)).sum
  { year_month := m
    settlement_volume := sv
    exit_court := ec
    litigation_pct := if ec + sv > 0 then ec / (ec + sv) else 0 }

/-- `Litigation_analysis_page`, combined branch (lines 541-553): group all
rows by month, derive `litigation_pct`, window-filter, reindex onto the month
grid with zero fill. -/
def litigationSeries (rows : List OicRow) (s e : ℕ) : List LitAgg :=
  let grouped := (monthsOf rows).map (litTotals rows)
  let grouped := grouped.filter (fun r => decide (s ≤ r.year_month ∧ r.year_month ≤ e))
  (monthRange s e).map fun m =>
    match grouped.find? (fun r => decide (r.year_month = m)) with
    | some r =>
      { year_month := m
        settlement_volume := r.settlement_volume
        exit_court := r.exit_court
        litigation_pct := r.litigation_pct }
    | none =>
      { year_month := m, settlement_volume := 0, exit_court := 0, litigation_pct := 0 }

/-- Second definition for the refinement claim, following the spec's step
order: window-filter the raw rows first, then group, derive the percentage
and reindex. -/
def litigationSeriesFilterFirst (rows : List OicRow) (s e : ℕ) : List LitAgg :=
  let rows := rows.filter (fun r => decide (s ≤ r.year_month ∧ r.year_month ≤ e))
  let grouped := (monthsOf rows).map (litTotals rows)
  (monthRange s e).map fun m =>
    match grouped.find? (fun r => decide (r.year_month = m)) with
    | some r =>
      { year_month := m
        settlement_volume := r.settlement_volume
        exit_court := r.exit_court
        litigation_pct := r.litigation_pct }
    | none =>
      { year_month := m, settlement_volume := 0, exit_court := 0, litigation_pct := 0 }

/-- One row of `assets/oic_dashboard.csv` as used by
`settlement_analysis_page` (the tariff volume/average metric pairs). -/
structure TariffRow where
  year_month : ℕ
  representation_status : String
  vol_tariff_amount : ℚ
  avg_tariff_amount : ℚ
  vol_non_tariff : ℚ
  avg_non_tariff : ℚ
  vol_tariff_uplift : ℚ
  avg_tariff_uplift : ℚ
deriving DecidableEq

/-- One row of the grouped frame of `settlement_analysis_page` (combined
branch: grouping key is `year_month`). -/
structure TariffAgg where
  year_month : ℕ
  vol_tariff_amount : ℚ
  avg_tariff_amount : ℚ
  vol_non_tariff : ℚ
  avg_non_tariff : ℚ
  vol_tariff_uplift : ℚ
  avg_tariff_uplift : ℚ
deriving DecidableEq

/-- `pandas` column mean: sum divided by length. -/
def meanQ (xs : List ℚ) : ℚ := xs.sum / (xs.length : ℚ)

/-- The distinct months of the window-filtered tariff rows. -/
def tariffMonthsOf (rows : List TariffRow) : List ℕ := (rows.map (·.year_month)).dedup

/-- `settlement_analysis_page` (lines 450-458), combined branch: window-filter
then `groupby(['year_month']).agg({'vol_*': 'sum', 'avg_*': 'mean'})` --
note the `'mean'` aggregation on the `avg_*` columns, taken verbatim from the
source.  The non-combined branch uses the same aggregation map with
`(year_month, representation_status)` keys. -/
def settlementGrouped (rows : List TariffRow) (s e : ℕ) : List TariffAgg :=
  let chart := rows.filter (fun r => decide (s ≤ r.year_month ∧ r.year_month ≤ e))
  (tariffMonthsOf chart).map fun m =>
    let grp := chart.filter (fun r => decide (r.year_month = m))
    { year_month := m
      vol_tariff_amount := (grp.map (·.vol_tariff_amount)).sum
      avg_tariff_amount := meanQ (grp.map (·.avg_tariff_amount))
      vol_non_tariff := (grp.map (·.vol_non_tariff)).sum
      avg_non_tariff := meanQ (grp.map (·.avg_non_tariff))
      vol_tariff_uplift := (grp.map (·.vol_tariff_uplift)).sum
      avg_tariff_uplift := meanQ (grp.map (·.avg_tariff_uplift)) }

/-- Modelled from the spec: the volume-weighted mean the spec requires for
derived average metrics -- summed numerator `value*weight` over summed weight,
0 when the weight total is not positive.  Used only to compare against what
the code computes. -/
def weightedAvgSpec (pairs : List (ℚ × ℚ)) : ℚ :=
  let w := (pairs.map (·.2)).sum
  if w > 0 then (pairs.map (fun p => p.1 * p.2)).sum / w else 0

/-- One row of a per-line-of-business Claims Portal frame after
`load_portal_csv` (canonical columns; counts are ints, `general_damages` is a
float). -/
structure PortalRow where
  lob : String
  year_month : ℕ
  new_claim : ℤ
  stage_1_exit : ℤ
  stage_2_exit : ℤ
  exit_process : ℤ
  court_pack : ℤ
  settled_claims : ℤ
  general_damages : ℚ
deriving DecidableEq

/-- The distinct `lob` labels (see `monthsOf` for why the groupby key sort is
omitted). -/
def lobsOf (rows : List PortalRow) : List String := (rows.map (·.lob)).dedup

/-- The distinct months of one LoB group. -/
def portalMonthsOf (g : List PortalRow) : List ℕ := (g.map (·.year_month)).dedup

/-- `g["year_month"].min()` over a (nonempty) LoB group; 0 on the empty group,
which `_complete_months_per_lob` never reaches. -/
def obsLo (g : List PortalRow) : ℕ :=
  match portalMonthsOf g with
  | [] => 0
  | m :: ms => ms.foldl min m

/-- `g["year_month"].max()` over a (nonempty) LoB group. -/
def obsHi (g : List PortalRow) : ℕ :=
  match portalMonthsOf g with
  | [] => 0
  | m :: ms => ms.foldl max m

/-- The duplicate collapse of `_complete_months_per_lob` (lines 193-208) at
one month: sum the count columns; `general_damages` becomes
`sum(gd * settled) / sum(settled)`, or 0 when the settled total is 0 (the
`replace(0, NA)` + `fillna(0.0)` dance). -/
def collapseAt (lob : String) (g : List PortalRow) (m : ℕ) : PortalRow :=
  let grp := g.filter (fun r => decide (r.year_month = m))
  let settledSum : ℤ := (grp.map (·.settled_claims)).sum
  { lob := lob
    year_month := m
    new_claim := (grp.map (·.new_claim)).sum
    stage_1_exit := (grp.map (·.stage_1_exit)).sum
    stage_2_exit := (grp.map (·.stage_2_exit)).sum
    exit_process := (grp.map (·.exit_process)).sum
    court_pack := (grp.map (·.court_pack)).sum
    settled_claims := settledSum
    general_damages :=
      if settledSum = 0 then 0
      else ((grp.map (fun r => r.general_damages * (r.settled_claims : ℚ))).sum) / (settledSum : ℚ) }

/-- The per-LoB body of `_complete_months_per_lob`: collapse duplicates per
month, then reindex onto `date_range(min, max, freq="MS")` with the count and
damages columns zero-filled.  (The code assigns the `lob` column at the end;
here the rows carry it from the start, with the same result.) -/
def perLobComplete (lob : String) (g : List PortalRow) : List PortalRow :=
  match portalMonthsOf g with
  | [] => []
  | m0 :: rest =>
    let collapsed := (m0 :: rest).map (collapseAt lob g)
    (monthRange (obsLo g) (obsHi g)).map fun m =>
      match collapsed.find? (fun r => decide (r.year_month = m)) with
      | some r => r
      | none =>
        { lob := lob, year_month := m, new_claim := 0, stage_1_exit := 0
          stage_2_exit := 0, exit_process := 0, court_pack := 0
          settled_claims := 0, general_damages := 0 }

/-- `_complete_months_per_lob` (lines 177-222): group by `lob` and complete
each group's months.  (`df.empty` short-circuit is the `[]` case of
`lobsOf`.) -/
def completeMonthsPerLob (rows : List PortalRow) : List PortalRow :=
  (lobsOf rows).flatMap fun lob =>
    perLobComplete lob (rows.filter (fun r => decide (r.lob = lob)))

/-- `claims_portal_page` (lines 621-627): mask by selected LoBs and the date
window, then complete months per LoB.  (The mask's `sort_values` is dropped:
`_complete_months_per_lob` regroups and reindexes, so the input order cannot
reach the output.) -/
def portalSeries (rows : List PortalRow) (lobs : List String) (s e : ℕ) : List PortalRow :=
  completeMonthsPerLob
    (rows.filter
      (fun r => decide (lobs.contains r.lob = true ∧ s ≤ r.year_month ∧ r.year_month ≤ e)))

/-! ### Period parser and numeric coercers (lines 88-115) -/

/-- Replace every occurrence of the character `a` by `b`
(`str.replace(a, b)` on single characters). -/
def replaceChar (a b : Char) (cs : List Char) : List Char :=
  cs.map fun c => if c = a then b else c

/-- Drop every occurrence of the character `a` (`str.replace(a, "")`). -/
def removeChar (a : Char) (cs : List Char) : List Char :=
  cs.filter fun c => decide (c ≠ a)

/-- ASCII whitespace, the subset of Python `str.strip()`'s whitespace that can
survive the preceding normalization steps here. -/
def isSpaceChar (c : Char) : Bool :=
  c = ' ' || c = '\t' || c = '\n' || c = '\r' || c = '\x0b' || c = '\x0c'

/-- Python `str.strip()`. -/
def stripChars (cs : List Char) : List Char :=
  ((cs.dropWhile isSpaceChar).reverse.dropWhile isSpaceChar).reverse

/-- A regex word character (`\w`) as used by the `\bSept\b` boundary test. -/
def isWordChar (c : Char) : Bool := c.isAlpha || c.isDigit || c = '_'

/-- Both ends of a candidate match sit on `\b` word boundaries: the
neighbouring character (when any) is not a word character. -/
def boundaryOk (prev next : Option Char) : Bool :=
  (match prev with | none => true | some c => !isWordChar c) &&
  (match next with | none => true | some c => !isWordChar c)

/-- `re.sub(r"\bSept\b", "Sep", s)`: scan left to right, replacing `Sept` by
`Sep` where both boundaries hold; `prev` is the character just before the
current scan position in the original string. -/
def replaceSept (prev : Option Char) : List Char → List Char
  | 'S' :: 'e' :: 'p' :: 't' :: rest =>
    if boundaryOk prev rest.head? then
      'S' :: 'e' :: 'p' :: replaceSept (some 't') rest
    else
      'S' :: replaceSept (some 'S') ('e' :: 'p' :: 't' :: rest)
  | c :: rest => c :: replaceSept (some c) rest
  | [] => []

/-- The normalization chain of `_parse_period_to_ts_mmm_yy` before parsing:
NBSP to space, en dash and em dash to `-`, strip, `Sept` to `Sep`. -/
def normalizePeriod (cs : List Char) : List Char :=
  replaceSept none
    (stripChars (replaceChar '—' '-' (replaceChar '–' '-' (replaceChar ' ' ' ' cs))))

/-- Split on a separator character (`[c for c in parts]`, like `str.split`). -/
def splitOnChar (a : Char) : List Char → List (List Char)
  | [] => [[]]
  | c :: cs =>
    let r := splitOnChar a cs
    if c = a then [] :: r
    else
      match r with
      | [] => [[c]]
      | h :: t => (c :: h) :: t

/-- The value of a decimal digit. -/
def digitVal (c : Char) : Option ℕ :=
  if '0' ≤ c ∧ c ≤ '9' then some (c.toNat - '0'.toNat) else none

/-- The value of a nonempty all-digit string. -/
def digitsVal (cs : List Char) : Option ℕ :=
  if cs = [] then none
  else
    cs.foldl
      (fun acc c =>
        match acc, digitVal c with
        | some n, some d => some (10 * n + d)
        | _, _ => none)
      (some 0)

/-- A parsed decimal literal: sign, integer part, fraction digits (value and
digit count).  Keeping the parts separate keeps the integer truncation of
`astype(int)` exact and computable. -/
structure DecimalLit where
  neg : Bool
  ip : ℕ
  fp : ℕ
  fplen : ℕ
deriving DecidableEq

/-- Parse an unsigned decimal: digits with an optional single `.` separating
integer and fraction parts, at least one digit overall (`"5."` and `".5"` are
accepted, as by `float`/`pd.to_numeric`). -/
def parseUnsigned (cs : List Char) : Option DecimalLit :=
  match splitOnChar '.' cs with
  | [ip] => (digitsVal ip).map fun n => { neg := false, ip := n, fp := 0, fplen := 0 }
  | [ip, fp] =>
    if ip = [] ∧ fp = [] then none
    else
      match (if ip = [] then some 0 else digitsVal ip),
        (if fp = [] then some 0 else digitsVal fp) with
      | some n, some f => some { neg := false, ip := n, fp := f, fplen := fp.length }
      | _, _ => none
  | _ => none

/-- Parse an optionally signed decimal literal.  Models the common core of
Python `float()` and `pd.to_numeric` on already-stripped input (exponent and
infinity notations are omitted; no claim exercises them). -/
def parseDecimal (cs : List Char) : Option DecimalLit :=
  match cs with
  | '-' :: rest => (parseUnsigned rest).map fun d => { d with neg := true }
  | '+' :: rest => parseUnsigned rest
  | _ => parseUnsigned cs

/-- The rational value of a parsed decimal literal. -/
def decimalToQ (d : DecimalLit) : ℚ :=
  (if d.neg then -1 else 1) * ((d.ip : ℚ) + (d.fp : ℚ) / (10 : ℚ) ^ d.fplen)

/-- The cell normalization of `_clean_int_series` (lines 105-114): NBSP,
narrow NBSP and thin space to space, commas removed, strip, then the
whole-cell replacements `"" -> "0"` and `"-" -> "0"`. -/
def intCellNormalize (s : String) : List Char :=
  let cs := replaceChar ' ' ' ' s.data
  let cs := replaceChar ' ' ' ' cs
  let cs := replaceChar ' ' ' ' cs
  let cs := removeChar ',' cs
  let cs := stripChars cs
  if cs = [] then ['0'] else if cs = ['-'] then ['0'] else cs

/-- `_clean_int_series` on one cell: normalize, then
`pd.to_numeric(..., errors="coerce").fillna(0).astype(int)` -- a failed parse
becomes 0, and `astype(int)` truncates toward zero (for a parsed decimal that
is just the signed integer part). -/
def cleanIntCell (s : String) : ℤ :=
  match parseDecimal (intCellNormalize s) with
  | some d => (if d.neg then -1 else 1) * (d.ip : ℤ)
  | none => 0

/-- `_coerce_money` (lines 100-103): a missing cell (`pd.isna`) becomes 0.0;
otherwise strip `£` and commas and call `float`, which raises `ValueError`
(modelled as `Except.error ()`) on values it cannot parse. -/
def coerceMoney (x : Option String) : Except Unit ℚ :=
  match x with
  | none => Except.ok 0
  | some s =>
    match parseDecimal (stripChars (removeChar ',' (removeChar '£' s.data))) with
    | some d => Except.ok (decimalToQ d)
    | none => Except.error ()

/-- The twelve `%b` month abbreviations, matched case-insensitively as by
`strptime`. -/
def monthAbbrevNum (cs : List Char) : Option ℕ :=
  match cs.map Char.toLower with
  | ['j', 'a', 'n'] => some 1
  | ['f', 'e', 'b'] => some 2
  | ['m', 'a', 'r'] => some 3
  | ['a', 'p', 'r'] => some 4
  | ['m', 'a', 'y'] => some 5
  | ['j', 'u', 'n'] => some 6
  | ['j', 'u', 'l'] => some 7
  | ['a', 'u', 'g'] => some 8
  | ['s', 'e', 'p'] => some 9
  | ['o', 'c', 't'] => some 10
  | ['n', 'o', 'v'] => some 11
  | ['d', 'e', 'c'] => some 12
  | _ => none

/-- `_parse_period_to_ts_mmm_yy` on one cell: normalize, then parse with the
strict format `%b-%y` (`errors="coerce"` makes failures `none`); `%y` uses the
68/69 century pivot; `.dt.to_period("M").dt.to_timestamp()` is the identity on
the month index. -/
def parsePeriod (s : String) : Option ℕ :=
  match splitOnChar '-' (normalizePeriod s.data) with
  | [mon, yr] =>
    match monthAbbrevNum mon, yr with
    | some m, [d1, d2] =>
      match digitVal d1, digitVal d2 with
      | some a, some b =>
        let yy := 10 * a + b
        some (mkMonth (if yy ≤ 68 then 2000 + yy else 1900 + yy) m)
      | _, _ => none
    | _, _ => none
  | _ => none

/-! ### `load_portal_csv` (lines 120-157) -/

/-- One raw CSV record of a portal source, after the column renames (which are
pure header bookkeeping): the period string, the six count cells and the
optional money cell. -/
structure RawPortalRow where
  period : String
  new_claim : String
  stage_1_exit : String
  stage_2_exit : String
  exit_process : String
  court_pack : String
  settled_claims : String
  general_damages : Option String
deriving DecidableEq

/-- A row after period parsing and numeric coercion, before
`dropna(subset=["year_month"])`. -/
structure PortalStage where
  ym : Option ℕ
  new_claim : ℤ
  stage_1_exit : ℤ
  stage_2_exit : ℤ
  exit_process : ℤ
  court_pack : ℤ
  settled_claims : ℤ
  general_damages : ℚ
deriving DecidableEq

/-- The column passes of `load_portal_csv`: parse the period, clean the count
cells (total) and coerce the money cell (which can raise, failing the whole
load). -/
def loadStage : List RawPortalRow → Except Unit (List PortalStage)
  | [] => Except.ok []
  | rr :: rest =>
    match coerceMoney rr.general_damages with
    | Except.error err => Except.error err
    | Except.ok gd =>
      match loadStage rest with
      | Except.error err => Except.error err
      | Except.ok tail =>
        Except.ok
          ({ ym := parsePeriod rr.period
             new_claim := cleanIntCell rr.new_claim
             stage_1_exit := cleanIntCell rr.stage_1_exit
             stage_2_exit := cleanIntCell rr.stage_2_exit
             exit_process := cleanIntCell rr.exit_process
             court_pack := cleanIntCell rr.court_pack
             settled_claims := cleanIntCell rr.settled_claims
             general_damages := gd } :: tail)

/-- `load_portal_csv`: after the column passes, tag with the LoB, drop rows
whose period failed to parse (`dropna(subset=["year_month"])`) and sort by
`year_month`.  The returned frame is the function's entire result: nothing
else -- in particular no dropped-row count -- leaves it. -/
def loadPortalCsv (lob : String) (raw : List RawPortalRow) : Except Unit (List PortalRow) :=
  match loadStage raw with
  | Except.error err => Except.error err
  | Except.ok staged =>
    Except.ok
      (List.insertionSort (fun a b => a.year_month ≤ b.year_month)
        (staged.filterMap fun t =>
          match t.ym with
          | some m =>
            some
              { lob := lob, year_month := m, new_claim := t.new_claim
                stage_1_exit := t.stage_1_exit, stage_2_exit := t.stage_2_exit
                exit_process := t.exit_process, court_pack := t.court_pack
                settled_claims := t.settled_claims, general_damages := t.general_damages }
          | none => none))

/-- Modelled from the spec: the count of dropped unparseable-period rows that
the spec says is "reported/available for diagnostics".  `load_portal_csv`
computes no such value: this definition recomputes it from the raw input, to
state that the loader's actual result does not determine it. -/
def droppedPeriodCount (raw : List RawPortalRow) : ℕ :=
  (raw.filter fun rr => (parsePeriod rr.period).isNone).length

/-- One processed row of `load_portal_csv`, named for the append lemma below. -/
def stageOf (rr : RawPortalRow) (gd : ℚ) : PortalStage :=
  { ym := parsePeriod rr.period
    new_claim := cleanIntCell rr.new_claim
    stage_1_exit := cleanIntCell rr.stage_1_exit
    stage_2_exit := cleanIntCell rr.stage_2_exit
    exit_process := cleanIntCell rr.exit_process
    court_pack := cleanIntCell rr.court_pack
    settled_claims := cleanIntCell rr.settled_claims
    general_damages := gd }

/-! ### Concrete inputs used by the witnesses and counterexamples -/

/-- The spec scenario's January row (spec section 8). -/
def exR1 : OicRow :=
  { year_month := mkMonth 2024 1, representation_status := "Represented"
    claims_volume := 10, settlement_volume := 5, total_settlement_value := 500
    exit_court := 0 }

/-- The spec scenario's March row. -/
def exR2 : OicRow :=
  { year_month := mkMonth 2024 3, representation_status := "Represented"
    claims_volume := 4, settlement_volume := 4, total_settlement_value := 800
    exit_court := 0 }

def scenarioRows : List OicRow := [exR1, exR2]

/-- Two categories in one month with equal volumes but different settlement
values; their ratio metrics do not add up to the combined ratio. -/
def exA : OicRow :=
  { year_month := 0, representation_status := "A", claims_volume := 1
    settlement_volume := 1, total_settlement_value := 100, exit_court := 0 }

def exB : OicRow :=
  { year_month := 0, representation_status := "B", claims_volume := 2
    settlement_volume := 1, total_settlement_value := 300, exit_court := 0 }

def ratioRows : List OicRow := [exA, exB]

/-- Tariff rows with different volumes (1 and 3) and different per-row
averages (100 and 200): the arithmetic mean is 150, the volume-weighted mean
175. -/
def exT1 : TariffRow :=
  { year_month := 0, representation_status := "Represented"
    vol_tariff_amount := 1, avg_tariff_amount := 100, vol_non_tariff := 0
    avg_non_tariff := 0, vol_tariff_uplift := 0, avg_tariff_uplift := 0 }

def exT2 : TariffRow :=
  { year_month := 0, representation_status := "Represented"
    vol_tariff_amount := 3, avg_tariff_amount := 200, vol_non_tariff := 0
    avg_non_tariff := 0, vol_tariff_uplift := 0, avg_tariff_uplift := 0 }

def tariffRows : List TariffRow := [exT1, exT2]

/-- A single EL portal row at month 2 (inside a filter window 0..3). -/
def pEL : PortalRow :=
  { lob := "EL", year_month := 2, new_claim := 1, stage_1_exit := 0
    stage_2_exit := 0, exit_process := 0, court_pack := 0, settled_claims := 0
    general_damages := 0 }

/-- Duplicate `(lob, month)` portal rows: settled 2 with damages 10 and
settled 3 with damages 20; the weighted collapse gives (10*2+20*3)/5 = 16. -/
def q1 : PortalRow :=
  { lob := "EL", year_month := 3, new_claim := 1, stage_1_exit := 1
    stage_2_exit := 0, exit_process := 0, court_pack := 0, settled_claims := 2
    general_damages := 10 }

def q2 : PortalRow :=
  { lob := "EL", year_month := 3, new_claim := 4, stage_1_exit := 0
    stage_2_exit := 0, exit_process := 0, court_pack := 0, settled_claims := 3
    general_damages := 20 }

def dupRows : List PortalRow := [q1, q2]

/-- A raw portal CSV record with a well-formed period. -/
def rawMar : RawPortalRow :=
  { period := "Mar-24", new_claim := "2,000", stage_1_exit := "1"
    stage_2_exit := "0", exit_process := "-", court_pack := "0"
    settled_claims := "3", general_damages := none }

def rawSep : RawPortalRow :=
  { period := "Sep-23", new_claim := "7", stage_1_exit := "1"
    stage_2_exit := "0", exit_process := "-", court_pack := "0"
    settled_claims := "3", general_damages := none }

/-- A raw record whose period string cannot be parsed. -/
def rawBad : RawPortalRow :=
  { period := "garbage", new_claim := "9", stage_1_exit := "1"
    stage_2_exit := "0", exit_process := "-", court_pack := "0"
    settled_claims := "3", general_damages := none }

/-! ### General list lemmas -/

theorem mem_monthRange {s e m : ℕ} : m ∈ monthRange s e ↔ s ≤ m ∧ m ≤ e := by
  simp only [monthRange, List.mem_map, List.mem_range]
  constructor
  · rintro ⟨i, hi, rfl⟩
    omega
  · rintro ⟨h1, h2⟩
    exact ⟨m - s, by omega, by omega⟩

theorem nodup_monthRange (s e : ℕ) : (monthRange s e).Nodup :=
  (List.nodup_range _).map fun a b h => by omega

/-- `find?` with a key predicate over a list built by mapping a constructor
over keys: the hit is the constructor at the key. -/
theorem find?_map_key {κ α : Type} [DecidableEq κ] (mk : κ → α) (key : α → κ)
    (hk : ∀ x, key (mk x) = x) (ks : List κ) (k : κ) :
    (ks.map mk).find? (fun r => decide (key r = k)) =
      if k ∈ ks then some (mk k) else none := by
  induction ks with
  | nil => simp
  | cons k0 ks ih =>
    by_cases h : k0 = k
    · subst h
      simp [List.find?_cons, hk]
    · simp only [List.map_cons, List.find?_cons, hk, h, decide_False, List.mem_cons]
      rw [if_congr (or_iff_right fun hh => h hh.symm) rfl rfl]
      simpa using ih

/-- Filtering first cannot change a `find?` whose predicate implies the
filter. -/
theorem filter_find?_of_imp {α : Type} (p q : α → Bool) (l : List α)
    (h : ∀ x, p x = true → q x = true) :
    (l.filter q).find? p = l.find? p := by
  induction l with
  | nil => rfl
  | cons a l ih =>
    cases hq : q a with
    | true =>
      cases hp : p a with
      | true => simp [List.filter_cons, hq, List.find?_cons, hp]
      | false => simp [List.filter_cons, hq, List.find?_cons, hp, ih]
    | false =>
      have hp : p a = false := by
        cases hpa : p a with
        | true => exact absurd (h a hpa) (by simp [hq])
        | false => rfl
      simp [List.filter_cons, hq, List.find?_cons, hp, ih]

theorem flatMap_filter_of_not_mem {κ α : Type} [DecidableEq κ] (ks : List κ)
    (F : κ → List α) (key : α → κ) (hF : ∀ k, ∀ x ∈ F k, key x = k) (k : κ)
    (hk : k ∉ ks) :
    (ks.flatMap F).filter (fun x => decide (key x = k)) = [] := by
  rw [List.filter_eq_nil_iff]
  intro a ha
  rw [List.mem_flatMap] at ha
  obtain ⟨k0, hk0, hak0⟩ := ha
  have : key a = k0 := hF k0 a hak0
  simp only [decide_eq_true_eq, this]
  rintro rfl
  exact hk hk0

/-- Filtering a flatMap-over-distinct-keys by one key yields that key's
block. -/
theorem flatMap_filter_key {κ α : Type} [DecidableEq κ] (ks : List κ)
    (hnd : ks.Nodup) (F : κ → List α) (key : α → κ)
    (hF : ∀ k, ∀ x ∈ F k, key x = k) (k : κ) (hk : k ∈ ks) :
    (ks.flatMap F).filter (fun x => decide (key x = k)) = F k := by
  induction ks with
  | nil => cases hk
  | cons k0 ks ih =>
    rw [List.flatMap_cons, List.filter_append]
    rcases List.nodup_cons.mp hnd with ⟨hk0, hnd'⟩
    by_cases h : k0 = k
    · subst h
      rw [List.filter_eq_self.mpr fun a ha => by simp [hF k0 a ha],
        flatMap_filter_of_not_mem ks F key hF k0 hk0, List.append_nil]
    · rw [List.filter_eq_nil_iff.mpr fun a ha => by simp [hF k0 a ha, h],
        List.nil_append]
      exact ih hnd' ((List.mem_cons.mp hk).resolve_left fun hkk => h hkk.symm)

theorem map_eq_flatMap_singleton {α β : Type} (l : List α) (f : α → β) :
    l.map f = l.flatMap fun a => [f a] := by
  induction l with
  | nil => rfl
  | cons a l ih => simp [List.flatMap_cons, ih]

/-- Summing an indicator over a duplicate-free list that contains the marked
element. -/
theorem sum_map_ite_eq {sel : List String} (hnd : sel.Nodup) {a : String}
    (ha : a ∈ sel) (k : ℚ) :
    (sel.map fun c => if a = c then k else 0).sum = k := by
  induction sel with
  | nil => cases ha
  | cons c cs ih =>
    rcases List.nodup_cons.mp hnd with ⟨hc, hnd'⟩
    rcases List.mem_cons.mp ha with h | h
    · subst h
      have : (cs.map fun c => if a = c then k else 0).sum = 0 :=
        List.sum_eq_zero fun x hx => by
          obtain ⟨c', hc', rfl⟩ := List.mem_map.mp hx
          have hac : a ≠ c' := fun hac => hc (hac.symm ▸ hc')
          simp [hac]
      simp [this]
    · have hac : a ≠ c := fun hac => hc (hac ▸ h)
      simp [hac, ih hnd' h]

/-- Partition of a per-month sum into the per-category sums, over a
duplicate-free category list covering every row of the month. -/
theorem sum_over_sel (sel : List String) (hnd : sel.Nodup) (rows : List OicRow)
    (m : ℕ)
    (hcov : ∀ r ∈ rows, r.year_month = m → r.representation_status ∈ sel)
    (f : OicRow → ℚ) :
    (sel.map fun c =>
        ((rows.filter
            (fun r => decide (r.year_month = m ∧ r.representation_status = c))).map
          f).sum).sum
      = ((rows.filter (fun r => decide (r.year_month = m))).map f).sum := by
  induction rows with
  | nil => simp
  | cons x xs ih =>
    have ihx := ih fun r hr => hcov r (List.mem_cons_of_mem x hr)
    by_cases hx : x.year_month = m
    · have hmem : x.representation_status ∈ sel := hcov x (List.mem_cons_self x xs) hx
      have step : ∀ c : String,
          ((List.filter
              (fun r => decide (r.year_month = m ∧ r.representation_status = c))
              (x :: xs)).map f).sum
            = (if x.representation_status = c then f x else 0) +
              ((List.filter
                  (fun r => decide (r.year_month = m ∧ r.representation_status = c))
                  xs).map f).sum := by
        intro c
        by_cases hxc : x.representation_status = c
        · simp [List.filter_cons, hx, hxc]
        · simp [List.filter_cons, hx, hxc]
      calc (sel.map fun c =>
            ((List.filter
                (fun r => decide (r.year_month = m ∧ r.representation_status = c))
                (x :: xs)).map f).sum).sum
          = (sel.map fun c =>
              (if x.representation_status = c then f x else 0) +
                ((List.filter
                    (fun r => decide (r.year_month = m ∧ r.representation_status = c))
                    xs).map f).sum).sum := by
            exact congrArg List.sum (List.map_congr_left fun c _ => step c)
        _ = (sel.map fun c => if x.representation_status = c then f x else 0).sum +
              (sel.map fun c =>
                ((List.filter
                    (fun r => decide (r.year_month = m ∧ r.representation_status = c))
                    xs).map f).sum).sum := List.sum_map_add
        _ = f x + ((xs.filter (fun r => decide (r.year_month = m))).map f).sum := by
            rw [sum_map_ite_eq hnd hmem, ihx]
        _ = ((List.filter (fun r => decide (r.year_month = m)) (x :: xs)).map f).sum := by
            simp [List.filter_cons, hx]
    · have step : ∀ c : String,
          List.filter (fun r => decide (r.year_month = m ∧ r.representation_status = c))
              (x :: xs)
            = List.filter
                (fun r => decide (r.year_month = m ∧ r.representation_status = c)) xs := by
        intro c
        simp [List.filter_cons, hx]
      calc (sel.map fun c =>
            ((List.filter
                (fun r => decide (r.year_month = m ∧ r.representation_status = c))
                (x :: xs)).map f).sum).sum
          = (sel.map fun c =>
              ((List.filter
                  (fun r => decide (r.year_month = m ∧ r.representation_status = c))
                  xs).map f).sum).sum := by
            exact congrArg List.sum (List.map_congr_left fun c _ => by rw [step c])
        _ = ((xs.filter (fun r => decide (r.year_month = m))).map f).sum := ihx
        _ = ((List.filter (fun r => decide (r.year_month = m)) (x :: xs)).map f).sum := by
            simp [List.filter_cons, hx]

/-! ### Membership in the grouping keys -/

theorem mem_monthsOf {rows : List OicRow} {m : ℕ} :
    m ∈ monthsOf rows ↔ ∃ r ∈ rows, r.year_month = m := by
  simp [monthsOf, List.mem_dedup, List.mem_map]

theorem mem_monthCatKeysOf {rows : List OicRow} {m : ℕ} {c : String} :
    (m, c) ∈ monthCatKeysOf rows ↔
      ∃ r ∈ rows, r.year_month = m ∧ r.representation_status = c := by
  simp [monthCatKeysOf, List.mem_dedup, List.mem_map, Prod.ext_iff]

theorem mem_portalMonthsOf {g : List PortalRow} {m : ℕ} :
    m ∈ portalMonthsOf g ↔ ∃ r ∈ g, r.year_month = m := by
  simp [portalMonthsOf, List.mem_dedup, List.mem_map]

theorem mem_lobsOf {rows : List PortalRow} {L : String} :
    L ∈ lobsOf rows ↔ ∃ r ∈ rows, r.lob = L := by
  simp [lobsOf, List.mem_dedup, List.mem_map]

/-! ### The combined home-page series -/

theorem monthTotals_of_no_row {rows : List OicRow} {m : ℕ}
    (h : ∀ r ∈ rows, r.year_month ≠ m) :
    monthTotals rows m =
      { year_month := m, claims_volume := 0, settlement_volume := 0
        total_settlement_value := 0 } := by
  have hfil : rows.filter (fun r => decide (r.year_month = m)) = [] :=
    List.filter_eq_nil_iff.mpr fun a ha => by simpa using h a ha
  simp [monthTotals, hfil]

theorem monthAgg_eta (x : MonthAgg) (m : ℕ) (h : x.year_month = m) :
    ({ year_month := m, claims_volume := x.claims_volume
       settlement_volume := x.settlement_volume
       total_settlement_value := x.total_settlement_value } : MonthAgg) = x := by
  cases x
  simp_all

theorem windowFilter_find? (rows : List OicRow) (s e m : ℕ) (hs : s ≤ m)
    (he : m ≤ e) :
    (windowFilterAgg (groupByMonth rows) s e).find?
        (fun r => decide (r.year_month = m)) =
      if m ∈ monthsOf rows then some (monthTotals rows m) else none := by
  unfold windowFilterAgg
  rw [filter_find?_of_imp _ _ _ fun x hx => by
    simp only [decide_eq_true_eq] at hx ⊢
    omega]
  exact find?_map_key (monthTotals rows) MonthAgg.year_month (fun x => rfl)
    (monthsOf rows) m

/-- What the combined pipeline actually produces: one row per grid month,
holding that month's totals over all input rows plus the derived average. -/
theorem combinedSeries_eq (rows : List OicRow) (s e : ℕ) :
    combinedSeries rows s e =
      (monthRange s e).map fun m => addWeightedAvg (monthTotals rows m) := by
  unfold combinedSeries reindexMonths
  rw [List.map_map]
  refine List.map_congr_left fun m hm => ?_
  obtain ⟨hs, he⟩ := mem_monthRange.mp hm
  simp only [Function.comp_apply]
  rw [windowFilter_find? rows s e m hs he]
  by_cases hmem : m ∈ monthsOf rows
  · rw [if_pos hmem]
    exact congrArg addWeightedAvg (monthAgg_eta (monthTotals rows m) m rfl)
  · rw [if_neg hmem]
    have h0 : ∀ r ∈ rows, r.year_month ≠ m := fun r hr hrm =>
      hmem (mem_monthsOf.mpr ⟨r, hr, hrm⟩)
    rw [monthTotals_of_no_row h0]

theorem monthTotals_window (rows : List OicRow) (s e m : ℕ) (hs : s ≤ m)
    (he : m ≤ e) :
    monthTotals
        (rows.filter (fun r => decide (s ≤ r.year_month ∧ r.year_month ≤ e))) m =
      monthTotals rows m := by
  have hgrp :
      (rows.filter (fun r => decide (s ≤ r.year_month ∧ r.year_month ≤ e))).filter
          (fun r => decide (r.year_month = m)) =
        rows.filter (fun r => decide (r.year_month = m)) := by
    rw [List.filter_filter]
    refine List.filter_congr fun r _ => ?_
    by_cases h : r.year_month = m
    · simp [h, hs, he]
    · simp [h]
  simp only [monthTotals]
  rw [hgrp]

/-- The spec-ordered pipeline produces the same rows. -/
theorem combinedSeriesFilterFirst_eq (rows : List OicRow) (s e : ℕ) :
    combinedSeriesFilterFirst rows s e =
      (monthRange s e).map fun m => addWeightedAvg (monthTotals rows m) := by
  unfold combinedSeriesFilterFirst reindexMonths
  rw [List.map_map]
  refine List.map_congr_left fun m hm => ?_
  obtain ⟨hs, he⟩ := mem_monthRange.mp hm
  simp only [Function.comp_apply]
  rw [show (groupByMonth
      (rows.filter (fun r => decide (s ≤ r.year_month ∧ r.year_month ≤ e)))).find?
      (fun r => decide (r.year_month = m)) =
      if m ∈ monthsOf
          (rows.filter (fun r => decide (s ≤ r.year_month ∧ r.year_month ≤ e)))
        then some (monthTotals
          (rows.filter (fun r => decide (s ≤ r.year_month ∧ r.year_month ≤ e))) m)
        else none from
    find?_map_key _ MonthAgg.year_month (fun x => rfl) _ m]
  by_cases hmem : m ∈ monthsOf
      (rows.filter (fun r => decide (s ≤ r.year_month ∧ r.year_month ≤ e)))
  · rw [if_pos hmem, monthTotals_window rows s e m hs he]
    exact congrArg addWeightedAvg (monthAgg_eta (monthTotals rows m) m rfl)
  · rw [if_neg hmem]
    have h0 : ∀ r ∈ rows, r.year_month ≠ m := by
      intro r hr hrm
      refine hmem (mem_monthsOf.mpr ⟨r, List.mem_filter.mpr ⟨hr, ?_⟩, hrm⟩)
      simp [hrm, hs, he]
    rw [monthTotals_of_no_row h0]

/-! ### The per-category home-page series -/

theorem flatMap_congr_left {α β : Type} {l : List α} {f g : α → List β}
    (h : ∀ a ∈ l, f a = g a) : l.flatMap f = l.flatMap g := by
  induction l with
  | nil => rfl
  | cons a l ih =>
    rw [List.flatMap_cons, List.flatMap_cons, h a (List.mem_cons_self a l),
      ih fun x hx => h x (List.mem_cons_of_mem a hx)]

theorem catAgg_eta (x : CatAgg) (m : ℕ) (c : String) (hm : x.year_month = m)
    (hc : x.representation_status = c) :
    ({ year_month := m, representation_status := c
       claims_volume := x.claims_volume
       settlement_volume := x.settlement_volume
       total_settlement_value := x.total_settlement_value } : CatAgg) = x := by
  cases x
  simp_all

theorem gridGroup_find? (rows2 : List OicRow) (m : ℕ) (c : String) :
    (groupByMonthCat rows2).find?
        (fun r => decide (r.year_month = m ∧ r.representation_status = c)) =
      if (m, c) ∈ monthCatKeysOf rows2 then some (catTotals rows2 (m, c))
        else none := by
  have hpred :
      (fun (r : CatAgg) => decide (r.year_month = m ∧ r.representation_status = c)) =
        fun r => decide ((r.year_month, r.representation_status) = (m, c)) := by
    funext r
    exact (decide_eq_decide.mpr (by simp [Prod.ext_iff])).symm
  rw [hpred]
  have hkey := find?_map_key (catTotals rows2)
    (fun r => (r.year_month, r.representation_status)) (fun k => rfl)
    (monthCatKeysOf rows2) (m, c)
  by_cases hmem : (m, c) ∈ monthCatKeysOf rows2
  · rw [if_pos hmem]
    rw [if_pos hmem] at hkey
    exact hkey
  · rw [if_neg hmem]
    rw [if_neg hmem] at hkey
    exact hkey

theorem catTotals_window (rows : List OicRow) (sel : List String) (s e m : ℕ)
    (c : String) (hs : s ≤ m) (he : m ≤ e) (hc : c ∈ sel) :
    catTotals
        ((rows.filter
            (fun r => decide (sel.contains r.representation_status = true))).filter
          (fun r => decide (s ≤ r.year_month ∧ r.year_month ≤ e))) (m, c) =
      catTotals rows (m, c) := by
  have hcontains : sel.contains c = true := List.elem_iff.mpr hc
  have hgrp :
      ((rows.filter
          (fun r => decide (sel.contains r.representation_status = true))).filter
        (fun r => decide (s ≤ r.year_month ∧ r.year_month ≤ e))).filter
          (fun r => decide (r.year_month = m ∧ r.representation_status = c)) =
        rows.filter
          (fun r => decide (r.year_month = m ∧ r.representation_status = c)) := by
    rw [List.filter_filter, List.filter_filter]
    refine List.filter_congr fun r _ => ?_
    by_cases h : r.year_month = m ∧ r.representation_status = c
    · obtain ⟨h1, h2⟩ := h
      simp [h1, h2, hs, he, hc]
    · simp [h]
  simp only [catTotals]
  rw [hgrp]

theorem catTotals_of_no_row (rows2 : List OicRow) (m : ℕ) (c : String)
    (h : ∀ r ∈ rows2, ¬(r.year_month = m ∧ r.representation_status = c)) :
    catTotals rows2 (m, c) =
      { year_month := m, representation_status := c, claims_volume := 0
        settlement_volume := 0, total_settlement_value := 0 } := by
  have hfil :
      rows2.filter
          (fun r => decide (r.year_month = m) && decide (r.representation_status = c)) =
        [] :=
    List.filter_eq_nil_iff.mpr fun a ha => by simpa using h a ha
  simp [catTotals, hfil]

/-- What the per-category pipeline actually produces: the full month x
category grid of per-key totals over all input rows, plus the derived
average. -/
theorem catSeries_eq (rows : List OicRow) (sel : List String) (s e : ℕ) :
    catSeries rows sel s e =
      (monthRange s e).flatMap fun m =>
        sel.map fun c => addWeightedAvgCat (catTotals rows (m, c)) := by
  unfold catSeries reindexGrid
  rw [List.map_flatMap]
  refine flatMap_congr_left fun m hm => ?_
  obtain ⟨hs, he⟩ := mem_monthRange.mp hm
  rw [List.map_map]
  refine List.map_congr_left fun c hc => ?_
  simp only [Function.comp_apply]
  rw [gridGroup_find?]
  by_cases hmem :
      (m, c) ∈ monthCatKeysOf
        ((rows.filter
            (fun r => decide (sel.contains r.representation_status = true))).filter
          (fun r => decide (s ≤ r.year_month ∧ r.year_month ≤ e)))
  · rw [if_pos hmem]
    exact congrArg addWeightedAvgCat
      ((catAgg_eta _ m c rfl rfl).trans (catTotals_window rows sel s e m c hs he hc))
  · rw [if_neg hmem]
    have h0 : ∀ r ∈ rows, ¬(r.year_month = m ∧ r.representation_status = c) := by
      rintro r hr ⟨h1, h2⟩
      refine hmem (mem_monthCatKeysOf.mpr
        ⟨r, List.mem_filter.mpr ⟨List.mem_filter.mpr ⟨hr, ?_⟩, ?_⟩, h1, h2⟩)
      · simp [h2, hc]
      · simp [h1, hs, he]
    rw [catTotals_of_no_row rows m c h0]

/-! ### The litigation series -/

theorem litAgg_eta (x : LitAgg) (m : ℕ) (h : x.year_month = m) :
    ({ year_month := m, settlement_volume := x.settlement_volume
       exit_court := x.exit_court, litigation_pct := x.litigation_pct } : LitAgg) = x := by
  cases x
  simp_all

theorem litTotals_of_no_row {rows : List OicRow} {m : ℕ}
    (h : ∀ r ∈ rows, r.year_month ≠ m) :
    litTotals rows m =
      { year_month := m, settlement_volume := 0, exit_court := 0
        litigation_pct := 0 } := by
  have hfil : rows.filter (fun r => decide (r.year_month = m)) = [] :=
    List.filter_eq_nil_iff.mpr fun a ha => by simpa using h a ha
  simp [litTotals, hfil]

theorem litigationSeries_eq (rows : List OicRow) (s e : ℕ) :
    litigationSeries rows s e = (monthRange s e).map (litTotals rows) := by
  unfold litigationSeries
  refine List.map_congr_left fun m hm => ?_
  obtain ⟨hs, he⟩ := mem_monthRange.mp hm
  rw [filter_find?_of_imp _ _ _ fun x hx => by
    simp only [decide_eq_true_eq] at hx ⊢
    omega]
  rw [show ((monthsOf rows).map (litTotals rows)).find?
      (fun r => decide (r.year_month = m)) =
      if m ∈ monthsOf rows then some (litTotals rows m) else none from
    find?_map_key _ LitAgg.year_month (fun x => rfl) _ m]
  by_cases hmem : m ∈ monthsOf rows
  · rw [if_pos hmem]
    exact litAgg_eta (litTotals rows m) m rfl
  · rw [if_neg hmem]
    have h0 : ∀ r ∈ rows, r.year_month ≠ m := fun r hr hrm =>
      hmem (mem_monthsOf.mpr ⟨r, hr, hrm⟩)
    rw [litTotals_of_no_row h0]

theorem litTotals_window (rows : List OicRow) (s e m : ℕ) (hs : s ≤ m)
    (he : m ≤ e) :
    litTotals
        (rows.filter (fun r => decide (s ≤ r.year_month ∧ r.year_month ≤ e))) m =
      litTotals rows m := by
  have hgrp :
      (rows.filter (fun r => decide (s ≤ r.year_month ∧ r.year_month ≤ e))).filter
          (fun r => decide (r.year_month = m)) =
        rows.filter (fun r => decide (r.year_month = m)) := by
    rw [List.filter_filter]
    refine List.filter_congr fun r _ => ?_
    by_cases h : r.year_month = m
    · simp [h, hs, he]
    · simp [h]
  simp only [litTotals]
  rw [hgrp]

theorem litigationSeriesFilterFirst_eq (rows : List OicRow) (s e : ℕ) :
    litigationSeriesFilterFirst rows s e = (monthRange s e).map (litTotals rows) := by
  unfold litigationSeriesFilterFirst
  refine List.map_congr_left fun m hm => ?_
  obtain ⟨hs, he⟩ := mem_monthRange.mp hm
  rw [show ((monthsOf
      (rows.filter (fun r => decide (s ≤ r.year_month ∧ r.year_month ≤ e)))).map
      (litTotals
        (rows.filter (fun r => decide (s ≤ r.year_month ∧ r.year_month ≤ e))))).find?
      (fun r => decide (r.year_month = m)) =
      if m ∈ monthsOf
          (rows.filter (fun r => decide (s ≤ r.year_month ∧ r.year_month ≤ e)))
        then some (litTotals
          (rows.filter (fun r => decide (s ≤ r.year_month ∧ r.year_month ≤ e))) m)
        else none from
    find?_map_key _ LitAgg.year_month (fun x => rfl) _ m]
  by_cases hmem : m ∈ monthsOf
      (rows.filter (fun r => decide (s ≤ r.year_month ∧ r.year_month ≤ e)))
  · rw [if_pos hmem, litTotals_window rows s e m hs he]
    exact litAgg_eta (litTotals rows m) m rfl
  · rw [if_neg hmem]
    have h0 : ∀ r ∈ rows, r.year_month ≠ m := by
      intro r hr hrm
      refine hmem (mem_monthsOf.mpr ⟨r, List.mem_filter.mpr ⟨hr, ?_⟩, hrm⟩)
      simp [hrm, hs, he]
    rw [litTotals_of_no_row h0]

/-! ### The Claims Portal per-LoB completion -/

theorem foldl_min_le_self (ms : List ℕ) (a : ℕ) : ms.foldl min a ≤ a := by
  induction ms generalizing a with
  | nil => exact le_refl a
  | cons m ms ih => exact le_trans (ih (min a m)) (min_le_left a m)

theorem foldl_min_le_mem {ms : List ℕ} {x : ℕ} (hx : x ∈ ms) (a : ℕ) :
    ms.foldl min a ≤ x := by
  induction ms generalizing a with
  | nil => cases hx
  | cons m ms ih =>
    rcases List.mem_cons.mp hx with h | h
    · subst h
      exact le_trans (foldl_min_le_self ms (min a x)) (min_le_right a x)
    · exact ih h (min a m)

theorem le_foldl_max_self (ms : List ℕ) (a : ℕ) : a ≤ ms.foldl max a := by
  induction ms generalizing a with
  | nil => exact le_refl a
  | cons m ms ih => exact le_trans (le_max_left a m) (ih (max a m))

theorem mem_le_foldl_max {ms : List ℕ} {x : ℕ} (hx : x ∈ ms) (a : ℕ) :
    x ≤ ms.foldl max a := by
  induction ms generalizing a with
  | nil => cases hx
  | cons m ms ih =>
    rcases List.mem_cons.mp hx with h | h
    · subst h
      exact le_trans (le_max_right a x) (le_foldl_max_self ms (max a x))
    · exact ih h (max a m)

theorem obsLo_le_of_mem {g : List PortalRow} {m : ℕ}
    (hm : m ∈ portalMonthsOf g) : obsLo g ≤ m := by
  cases heq : portalMonthsOf g with
  | nil => rw [heq] at hm; cases hm
  | cons m0 ms =>
    rw [heq] at hm
    simp only [obsLo, heq]
    rcases List.mem_cons.mp hm with h | h
    · subst h
      exact foldl_min_le_self ms m
    · exact foldl_min_le_mem h m0

theorem mem_le_obsHi {g : List PortalRow} {m : ℕ}
    (hm : m ∈ portalMonthsOf g) : m ≤ obsHi g := by
  cases heq : portalMonthsOf g with
  | nil => rw [heq] at hm; cases hm
  | cons m0 ms =>
    rw [heq] at hm
    simp only [obsHi, heq]
    rcases List.mem_cons.mp hm with h | h
    · subst h
      exact le_foldl_max_self ms m
    · exact mem_le_foldl_max h m0

theorem perLobComplete_lob {lob : String} {g : List PortalRow} :
    ∀ x ∈ perLobComplete lob g, x.lob = lob := by
  intro x hx
  cases heq : portalMonthsOf g with
  | nil => simp only [perLobComplete, heq] at hx; cases hx
  | cons m0 ms =>
    simp only [perLobComplete, heq] at hx
    obtain ⟨m, hm, rfl⟩ := List.mem_map.mp hx
    cases hfind : ((m0 :: ms).map (collapseAt lob g)).find?
        (fun r => decide (r.year_month = m)) with
    | none => simp [hfind]
    | some r =>
      simp only [hfind]
      obtain ⟨m', hm', rfl⟩ := List.mem_map.mp (List.mem_of_find?_eq_some hfind)
      rfl

theorem perLobComplete_map_ym {lob : String} {g : List PortalRow}
    (hg : portalMonthsOf g ≠ []) :
    (perLobComplete lob g).map (·.year_month) =
      monthRange (obsLo g) (obsHi g) := by
  cases heq : portalMonthsOf g with
  | nil => exact absurd heq hg
  | cons m0 ms =>
    simp only [perLobComplete, heq]
    rw [List.map_map]
    have hpt : ∀ m ∈ monthRange (obsLo g) (obsHi g),
        ((fun x => x.year_month) ∘ fun m =>
          match ((m0 :: ms).map (collapseAt lob g)).find?
              (fun r => decide (r.year_month = m)) with
          | some r => r
          | none =>
            { lob := lob, year_month := m, new_claim := 0, stage_1_exit := 0
              stage_2_exit := 0, exit_process := 0, court_pack := 0
              settled_claims := 0, general_damages := 0 }) m = m := by
      intro m hm
      simp only [Function.comp_apply]
      cases hfind : ((m0 :: ms).map (collapseAt lob g)).find?
          (fun r => decide (r.year_month = m)) with
      | none => simp [hfind]
      | some r =>
        simp only [hfind]
        simpa using List.find?_some hfind
    rw [List.map_congr_left hpt, List.map_id']

theorem perLobComplete_filter_ym (lob : String) (g : List PortalRow) (m : ℕ)
    (hm : m ∈ portalMonthsOf g) :
    (perLobComplete lob g).filter (fun r => decide (r.year_month = m)) =
      [collapseAt lob g m] := by
  cases heq : portalMonthsOf g with
  | nil => rw [heq] at hm; cases hm
  | cons m0 ms =>
    simp only [perLobComplete, heq]
    rw [map_eq_flatMap_singleton]
    have hmr : m ∈ monthRange (obsLo g) (obsHi g) :=
      mem_monthRange.mpr ⟨obsLo_le_of_mem hm, mem_le_obsHi hm⟩
    rw [flatMap_filter_key (monthRange (obsLo g) (obsHi g))
      (nodup_monthRange _ _) _ PortalRow.year_month
      (fun k x hx => by
        rcases List.mem_singleton.mp hx with rfl
        cases hfind : ((m0 :: ms).map (collapseAt lob g)).find?
            (fun r => decide (r.year_month = k)) with
        | none => simp [hfind]
        | some r =>
          simp only [hfind]
          simpa using List.find?_some hfind)
      m hmr]
    rw [show ((m0 :: ms).map (collapseAt lob g)).find?
        (fun r => decide (r.year_month = m)) =
        if m ∈ (m0 :: ms) then some (collapseAt lob g m) else none from
      find?_map_key _ PortalRow.year_month (fun x => rfl) _ m]
    rw [if_pos (heq ▸ hm)]

theorem completeMonths_filter_lob (rows : List PortalRow) (L : String)
    (hL : ∃ r ∈ rows, r.lob = L) :
    (completeMonthsPerLob rows).filter (fun r => decide (r.lob = L)) =
      perLobComplete L (rows.filter (fun r => decide (r.lob = L))) := by
  unfold completeMonthsPerLob
  exact flatMap_filter_key (lobsOf rows) (List.nodup_dedup _) _ PortalRow.lob
    (fun k x hx => perLobComplete_lob x hx) L (mem_lobsOf.mpr hL)

theorem filter_lob_ym (rows : List PortalRow) (L : String) (m : ℕ) :
    (rows.filter (fun r => decide (r.lob = L))).filter
        (fun r => decide (r.year_month = m)) =
      rows.filter (fun r => decide (r.lob = L ∧ r.year_month = m)) := by
  rw [List.filter_filter]
  refine List.filter_congr fun r _ => ?_
  by_cases h1 : r.lob = L <;> by_cases h2 : r.year_month = m <;> simp [h1, h2]

/-! ### Loader lemmas -/

theorem loadStage_append_ok (raw : List RawPortalRow) (rr : RawPortalRow)
    (gd : ℚ) (hgd : coerceMoney rr.general_damages = Except.ok gd) :
    loadStage (raw ++ [rr]) =
      match loadStage raw with
      | Except.error err => Except.error err
      | Except.ok l => Except.ok (l ++ [stageOf rr gd]) := by
  induction raw with
  | nil => simp [loadStage, hgd, stageOf]
  | cons head tail ih =>
    cases hc : coerceMoney head.general_damages with
    | error err => simp [loadStage, hc]
    | ok gdh =>
      simp only [List.cons_append, loadStage, hc, List.append_eq]
      rw [ih]
      cases ht : loadStage tail with
      | error err => rfl
      | ok l => simp

theorem loadPortalCsv_append_badPeriod (lob : String)
    (raw : List RawPortalRow) (rr : RawPortalRow)
    (hper : parsePeriod rr.period = none)
    (hok : (coerceMoney rr.general_damages).isOk = true) :
    loadPortalCsv lob (raw ++ [rr]) = loadPortalCsv lob raw := by
  obtain ⟨gd, hgd⟩ : ∃ gd, coerceMoney rr.general_damages = Except.ok gd := by
    cases h : coerceMoney rr.general_damages with
    | error err =>
      rw [h] at hok
      simp [Except.isOk, Except.toBool] at hok
    | ok gd => exact ⟨gd, rfl⟩
  unfold loadPortalCsv
  rw [loadStage_append_ok raw rr gd hgd]
  cases hs : loadStage raw with
  | error err => rfl
  | ok l =>
    simp [List.filterMap_append, stageOf, hper]

/-! ### Concrete evaluations shared by corrected statements and
counterexamples -/

/-- The spec-section-8 scenario, as the category pipeline actually computes
it: January's weighted average is 500/5 = 100 (the spec's claimed 50 is an
arithmetic slip). -/
theorem catSeries_scenario_eval :
    (catSeries scenarioRows ["Represented"] (mkMonth 2024 1) (mkMonth 2024 3)).map
        (fun r => (r.year_month, r.claims_volume, r.settlement_volume,
          r.total_settlement_value, r.weighted_avg_settlement)) =
      [(mkMonth 2024 1, 10, 5, 500, 100),
       (mkMonth 2024 2, 0, 0, 0, 0),
       (mkMonth 2024 3, 4, 4, 800, 200)] := by
  rw [catSeries_eq]
  rw [show monthRange (mkMonth 2024 1) (mkMonth 2024 3) =
      [mkMonth 2024 1, mkMonth 2024 2, mkMonth 2024 3] from by decide]
  norm_num [catTotals, addWeightedAvgCat, scenarioRows, exR1, exR2, mkMonth]

/-- The same scenario's `weighted_avg_settlement` column alone. -/
theorem catSeries_scenario_was :
    (catSeries scenarioRows ["Represented"] (mkMonth 2024 1) (mkMonth 2024 3)).map
        (·.weighted_avg_settlement) = [100, 0, 200] := by
  rw [catSeries_eq]
  rw [show monthRange (mkMonth 2024 1) (mkMonth 2024 3) =
      [mkMonth 2024 1, mkMonth 2024 2, mkMonth 2024 3] from by decide]
  norm_num [catTotals, addWeightedAvgCat, scenarioRows, exR1, exR2, mkMonth]

/-- What `settlement_analysis_page`'s aggregation computes on `tariffRows`:
the `'mean'` of the per-row averages, 150. -/
theorem settlementGrouped_avg_eval :
    (settlementGrouped tariffRows 0 0).map (·.avg_tariff_amount) = [150] := by
  norm_num [settlementGrouped, tariffMonthsOf, meanQ, tariffRows, exT1, exT2]

/-- The spec's required weighted mean on the same data: 175. -/
theorem weightedAvgSpec_eval : weightedAvgSpec [(100, 1), (200, 3)] = 175 := by
  norm_num [weightedAvgSpec]

/-! ### The claims -/

/-- C9: the abbreviated-period parser maps "Sept-23" to 2023-09 and "Mar-24"
to 2024-03; the normalization steps (NBSP, en dash, trim, Sept->Sep) happen
before `%b-%y` parsing, so the same months are also produced from a variant
with a leading NBSP and an en dash. -/
theorem c9_period_parsing :
    parsePeriod "Sept-23" = some (mkMonth 2023 9) ∧
    parsePeriod "Mar-24" = some (mkMonth 2024 3) ∧
    parsePeriod " Sept–23" = some (mkMonth 2023 9) := by
  refine ⟨by decide, by decide, by decide⟩

/-- C10: in the combined aggregation paths of `home_page` and
`Litigation_analysis_page`, grouping by month and summing before applying the
date-window filter produces exactly the same series as filtering the raw rows
first and then grouping (the spec's step order), for every row set and date
window: month is the grouping key, so the window filter commutes with the
groupby. -/
theorem c10_filter_group_commute :
    (∀ (rows : List OicRow) (s e : ℕ),
        combinedSeries rows s e = combinedSeriesFilterFirst rows s e) ∧
    (∀ (rows : List OicRow) (s e : ℕ),
        litigationSeries rows s e = litigationSeriesFilterFirst rows s e) :=
  ⟨fun rows s e =>
      (combinedSeries_eq rows s e).trans (combinedSeriesFilterFirst_eq rows s e).symm,
    fun rows s e =>
      (litigationSeries_eq rows s e).trans (litigationSeriesFilterFirst_eq rows s e).symm⟩

/-- C2 (counterexample): on the spec's own scenario the code's January
weighted average is 500/5 = 100, not the claimed 50. -/
theorem c2_weighted_avg_counterexample :
    (catSeries scenarioRows ["Represented"] (mkMonth 2024 1) (mkMonth 2024 3)).map
        (·.weighted_avg_settlement) ≠ [50, 0, 200] := by
  rw [catSeries_scenario_was]
  intro h
  have h1 := congrArg (fun l => l.headI) h
  simp at h1

/-- C2 (amended): every output row of both home-page aggregation paths has
`weighted_avg_settlement = total_settlement_value / settlement_volume` when
`settlement_volume > 0` and `0` otherwise (never undefined); on the spec
scenario the output has three rows Jan/Feb/Mar, Feb all zeros, and the
weighted averages are 100 (= 500/5), 0 and 200. -/
theorem c2_weighted_avg_corrected :
    (∀ (rows : List OicRow) (s e : ℕ),
        (combinedSeries rows s e).map (·.weighted_avg_settlement) =
          (combinedSeries rows s e).map fun r =>
            if r.settlement_volume > 0 then
              r.total_settlement_value / r.settlement_volume
            else 0) ∧
    (∀ (rows : List OicRow) (sel : List String) (s e : ℕ),
        (catSeries rows sel s e).map (·.weighted_avg_settlement) =
          (catSeries rows sel s e).map fun r =>
            if r.settlement_volume > 0 then
              r.total_settlement_value / r.settlement_volume
            else 0) ∧
    (catSeries scenarioRows ["Represented"] (mkMonth 2024 1) (mkMonth 2024 3)).map
        (fun r => (r.year_month, r.claims_volume, r.settlement_volume,
          r.total_settlement_value, r.weighted_avg_settlement)) =
      [(mkMonth 2024 1, 10, 5, 500, 100),
       (mkMonth 2024 2, 0, 0, 0, 0),
       (mkMonth 2024 3, 4, 4, 800, 200)] := by
  refine ⟨?_, ?_, catSeries_scenario_eval⟩
  · intro rows s e
    unfold combinedSeries
    rw [List.map_map, List.map_map]
    exact List.map_congr_left fun x _ => rfl
  · intro rows sel s e
    unfold catSeries
    rw [List.map_map, List.map_map]
    exact List.map_congr_left fun x _ => rfl

/-- C3 (counterexample): on two tariff rows with volumes 1 and 3 and per-row
averages 100 and 200, the code's per-period average is the plain mean 150,
not the summed-numerator over summed-denominator value 175 required by the
claim. -/
theorem c3_mean_vs_weighted_counterexample :
    (settlementGrouped tariffRows 0 0).map (·.avg_tariff_amount) ≠
      [weightedAvgSpec [(100, 1), (200, 3)]] := by
  rw [settlementGrouped_avg_eval, weightedAvgSpec_eval]
  intro h
  have h1 := congrArg (fun l => l.headI) h
  simp at h1

/-- C3 (amended): the per-period `avg_tariff_amount` (and its two siblings)
is computed by `agg 'mean'`, a plain arithmetic mean of the per-row average
values, not the volume-weighted summed-numerator/summed-denominator average
the spec requires: on volumes 1 and 3 with averages 100 and 200 the code
produces 150 while the weighted value is 175. -/
theorem c3_mean_vs_weighted_corrected :
    ((settlementGrouped tariffRows 0 0).map
        (fun g => (g.year_month, g.vol_tariff_amount, g.avg_tariff_amount)) =
      [(0, 4, 150)]) ∧
    weightedAvgSpec [(100, 1), (200, 3)] = 175 ∧ (150 : ℚ) ≠ 175 := by
  refine ⟨?_, weightedAvgSpec_eval, by norm_num⟩
  norm_num [settlementGrouped, tariffMonthsOf, meanQ, tariffRows, exT1, exT2]

/-- C4 (counterexample): the malformed non-empty count cell "abc" survives
normalization unchanged, fails numeric conversion, and is silently coerced to
0 by `errors="coerce"` + `fillna(0)`; no `DataFormatError` exists in the
program. -/
theorem c4_numeric_coercion_counterexample :
    intCellNormalize "abc" = ['a', 'b', 'c'] ∧
    parseDecimal ['a', 'b', 'c'] = none ∧
    cleanIntCell "abc" = 0 := by
  refine ⟨by decide, by decide, by decide⟩

/-- C4 (amended): count cells that fail numeric conversion after separator
stripping are silently coerced to 0 (never an error), while a malformed
non-empty money cell makes `float` raise a bare `ValueError` (no row/column
information); well-formed cells coerce as the spec's scenarios say. -/
theorem c4_numeric_coercion_corrected :
    (∀ s : String, parseDecimal (intCellNormalize s) = none → cleanIntCell s = 0) ∧
    coerceMoney (some "abc") = Except.error () ∧
    coerceMoney (some "£1,234.50") = Except.ok (2469 / 2) ∧
    cleanIntCell "2,000" = 2000 ∧ cleanIntCell "-" = 0 := by
  refine ⟨?_, rfl, ?_, by decide, by decide⟩
  · intro s h
    simp [cleanIntCell, h]
  · rw [show coerceMoney (some "£1,234.50") =
        Except.ok (decimalToQ ⟨false, 1234, 50, 2⟩) from rfl]
    exact congrArg Except.ok (by norm_num [decimalToQ])

theorem c4_numeric_coercion_witness :
    parseDecimal (intCellNormalize "abc") = none ∧ cleanIntCell "abc" = 0 :=
  ⟨by decide, c4_numeric_coercion_corrected.1 "abc" (by decide)⟩

/-- C5 (counterexample): appending a row with an unparseable period leaves
the loader's result unchanged, while the number of dropped rows differs -- so
the loader's result cannot report or even determine that count; nothing else
leaves `load_portal_csv`. -/
theorem c5_dropped_periods_counterexample :
    loadPortalCsv "EL" [rawMar] = loadPortalCsv "EL" [rawMar, rawBad] ∧
    droppedPeriodCount [rawMar] ≠ droppedPeriodCount [rawMar, rawBad] :=
  ⟨rfl, by decide⟩

/-- C5 (amended): rows whose period fails to parse are dropped and the load
continues, but silently: the loader returns only the surviving frame and no
dropped-row count.  Appending such a row never changes the result, and on a
mixed input the loader returns exactly the parseable months, sorted. -/
theorem c5_dropped_periods_corrected :
    (∀ (lob : String) (raw : List RawPortalRow) (rr : RawPortalRow),
        parsePeriod rr.period = none →
        (coerceMoney rr.general_damages).isOk = true →
        loadPortalCsv lob (raw ++ [rr]) = loadPortalCsv lob raw) ∧
    (loadPortalCsv "EL" [rawMar, rawBad, rawSep]).map
        (fun l => l.map (·.year_month)) =
      Except.ok [mkMonth 2023 9, mkMonth 2024 3] ∧
    droppedPeriodCount [rawMar, rawBad, rawSep] = 1 :=
  ⟨loadPortalCsv_append_badPeriod, rfl, by decide⟩

theorem c5_dropped_periods_witness :
    parsePeriod rawBad.period = none ∧
    (coerceMoney rawBad.general_damages).isOk = true ∧
    loadPortalCsv "EL" ([rawMar] ++ [rawBad]) = loadPortalCsv "EL" [rawMar] :=
  ⟨by decide, by decide,
    c5_dropped_periods_corrected.1 "EL" [rawMar] rawBad (by decide) (by decide)⟩

/-- C6 (counterexample): with `start > end` the aggregation paths do not
raise anything -- no `InvalidRangeError` (or any range check) exists in the
program; they are total and return the empty series, because
`pd.date_range(start, end)` is empty. -/
theorem c6_invalid_range_counterexample :
    combinedSeries scenarioRows 5 2 = [] ∧
    catSeries scenarioRows ["Represented"] 5 2 = [] ∧
    litigationSeries scenarioRows 5 2 = [] := by
  refine ⟨by decide, by decide, by decide⟩

/-- C6 (amended): the program contains no `InvalidRangeError` and no
start/end validation; for `start > end` every aggregation path is total and
returns the empty series (the month grid is empty).  (The slider UI cannot in
fact produce such a range.) -/
theorem c6_invalid_range_corrected :
    ∀ (rows : List OicRow) (prows : List PortalRow) (sel lobs : List String)
      (s e : ℕ), e < s →
      combinedSeries rows s e = [] ∧ catSeries rows sel s e = [] ∧
      litigationSeries rows s e = [] ∧ portalSeries prows lobs s e = [] := by
  intro rows prows sel lobs s e h
  have hr : monthRange s e = [] := by
    unfold monthRange
    rw [show e + 1 - s = 0 by omega]
    rfl
  refine ⟨?_, ?_, ?_, ?_⟩
  · rw [combinedSeries_eq, hr]
    rfl
  · rw [catSeries_eq, hr]
    rfl
  · rw [litigationSeries_eq, hr]
    rfl
  · unfold portalSeries
    rw [show prows.filter
        (fun r => decide (lobs.contains r.lob = true ∧
          s ≤ r.year_month ∧ r.year_month ≤ e)) = [] from
      List.filter_eq_nil_iff.mpr fun a ha => by
        simp only [decide_eq_true_eq]
        rintro ⟨-, h1, h2⟩
        omega]
    rfl

/-- C1 (counterexample): the per-LoB portal series does not cover the filter
window.  With one EL row at month 2 and window [0, 3], the completed series
holds only month 2: months 0, 1 and 3 of the window are absent, because
`_complete_months_per_lob` reindexes to `date_range(g.min(), g.max())`, not
to the filter range. -/
theorem c1_completeness_counterexample :
    (0 ∈ monthRange 0 3 ∧ 3 ∈ monthRange 0 3) ∧
    (portalSeries [pEL] ["EL"] 0 3).map (·.year_month) = [2] ∧
    ¬(∀ m ∈ monthRange 0 3,
        ∃ r ∈ portalSeries [pEL] ["EL"] 0 3, r.year_month = m) := by
  refine ⟨by decide, by decide, by decide⟩

/-- C1 (amended): the two `home_page` aggregation paths do satisfy the
completeness invariant -- one row per month of the closed window (per
category in the category branch), no gaps, no duplicates, zero-filled where
no source rows exist.  The per-LoB portal series of
`_complete_months_per_lob` instead covers, for each line of business, the
contiguous month range from that LoB's earliest to latest observed month
within the filter window. -/
theorem c1_completeness_corrected :
    (∀ (rows : List OicRow) (s e : ℕ),
        (combinedSeries rows s e).map (·.year_month) = monthRange s e) ∧
    (∀ (rows : List OicRow) (sel : List String) (s e : ℕ),
        (catSeries rows sel s e).map
            (fun r => (r.year_month, r.representation_status)) =
          (monthRange s e).flatMap fun m => sel.map fun c => (m, c)) ∧
    (∀ s e : ℕ, (monthRange s e).Nodup) ∧
    (∀ (rows : List OicRow) (s e m : ℕ), s ≤ m → m ≤ e →
        (∀ x ∈ rows, x.year_month ≠ m) →
        (combinedSeries rows s e).filter (fun r => decide (r.year_month = m)) =
          [{ year_month := m, claims_volume := 0, settlement_volume := 0
             total_settlement_value := 0, weighted_avg_settlement := 0 }]) ∧
    (∀ (rows : List OicRow) (sel : List String) (s e m : ℕ) (c : String),
        sel.Nodup → c ∈ sel → s ≤ m → m ≤ e →
        (∀ x ∈ rows, ¬(x.year_month = m ∧ x.representation_status = c)) →
        ((catSeries rows sel s e).filter
            (fun r => decide (r.year_month = m))).filter
            (fun r => decide (r.representation_status = c)) =
          [{ year_month := m, representation_status := c, claims_volume := 0
             settlement_volume := 0, total_settlement_value := 0
             weighted_avg_settlement := 0 }]) ∧
    (∀ (rows : List PortalRow) (lobs : List String) (s e : ℕ) (L : String),
        (∃ r ∈ rows, (lobs.contains r.lob = true ∧
            s ≤ r.year_month ∧ r.year_month ≤ e) ∧ r.lob = L) →
        ((portalSeries rows lobs s e).filter
            (fun r => decide (r.lob = L))).map (·.year_month) =
          monthRange
            (obsLo ((rows.filter (fun r => decide (lobs.contains r.lob = true ∧
                s ≤ r.year_month ∧ r.year_month ≤ e))).filter
              (fun r => decide (r.lob = L))))
            (obsHi ((rows.filter (fun r => decide (lobs.contains r.lob = true ∧
                s ≤ r.year_month ∧ r.year_month ≤ e))).filter
              (fun r => decide (r.lob = L))))) := by
  refine ⟨?_, ?_, nodup_monthRange, ?_, ?_, ?_⟩
  · intro rows s e
    rw [combinedSeries_eq, List.map_map]
    exact (List.map_congr_left fun m _ => rfl).trans (List.map_id' _)
  · intro rows sel s e
    rw [catSeries_eq, List.map_flatMap]
    refine flatMap_congr_left fun m hm => ?_
    rw [List.map_map]
    exact List.map_congr_left fun c hc => rfl
  · intro rows s e m hs he h0
    rw [combinedSeries_eq, map_eq_flatMap_singleton]
    rw [flatMap_filter_key (monthRange s e) (nodup_monthRange s e) _
      AggRow.year_month
      (fun k x hx => by
        rcases List.mem_singleton.mp hx with rfl
        rfl)
      m (mem_monthRange.mpr ⟨hs, he⟩)]
    rw [monthTotals_of_no_row h0]
    norm_num [addWeightedAvg]
  · intro rows sel s e m c hnd hc hs he h0
    rw [catSeries_eq]
    rw [flatMap_filter_key (monthRange s e) (nodup_monthRange s e) _
      CatAggRow.year_month
      (fun k x hx => by
        obtain ⟨c', hc', rfl⟩ := List.mem_map.mp hx
        rfl)
      m (mem_monthRange.mpr ⟨hs, he⟩)]
    rw [map_eq_flatMap_singleton]
    rw [flatMap_filter_key sel hnd _ CatAggRow.representation_status
      (fun k x hx => by
        rcases List.mem_singleton.mp hx with rfl
        rfl)
      c hc]
    rw [catTotals_of_no_row rows m c h0]
    norm_num [addWeightedAvgCat]
  · intro rows lobs s e L hx
    obtain ⟨r, hr, hmask, hlob⟩ := hx
    unfold portalSeries
    have hrmask : r ∈ rows.filter
        (fun r => decide (lobs.contains r.lob = true ∧
          s ≤ r.year_month ∧ r.year_month ≤ e)) :=
      List.mem_filter.mpr ⟨hr, by simpa using hmask⟩
    rw [completeMonths_filter_lob _ L ⟨r, hrmask, hlob⟩]
    refine perLobComplete_map_ym ?_
    intro hnil
    have hrg : r ∈ (rows.filter
        (fun r => decide (lobs.contains r.lob = true ∧
          s ≤ r.year_month ∧ r.year_month ≤ e))).filter
        (fun rr => decide (rr.lob = L)) :=
      List.mem_filter.mpr ⟨hrmask, by simp [hlob]⟩
    have hmem := mem_portalMonthsOf.mpr ⟨r, hrg, rfl⟩
    rw [hnil] at hmem
    cases hmem

theorem c1_completeness_witness :
    ((∀ x ∈ scenarioRows, x.year_month ≠ mkMonth 2024 2) ∧
      (combinedSeries scenarioRows (mkMonth 2024 1) (mkMonth 2024 3)).filter
          (fun r => decide (r.year_month = mkMonth 2024 2)) =
        [{ year_month := mkMonth 2024 2, claims_volume := 0
           settlement_volume := 0, total_settlement_value := 0
           weighted_avg_settlement := 0 }]) ∧
    ((catSeries scenarioRows ["Represented"] (mkMonth 2024 1)
          (mkMonth 2024 3)).filter
        (fun r => decide (r.year_month = mkMonth 2024 2))).filter
        (fun r => decide (r.representation_status = "Represented")) =
      [{ year_month := mkMonth 2024 2, representation_status := "Represented"
         claims_volume := 0, settlement_volume := 0
         total_settlement_value := 0, weighted_avg_settlement := 0 }] ∧
    ((portalSeries [pEL] ["EL"] 0 3).filter
        (fun r => decide (r.lob = "EL"))).map (·.year_month) =
      monthRange
        (obsLo (([pEL].filter (fun r => decide (["EL"].contains r.lob = true ∧
            0 ≤ r.year_month ∧ r.year_month ≤ 3))).filter
          (fun r => decide (r.lob = "EL"))))
        (obsHi (([pEL].filter (fun r => decide (["EL"].contains r.lob = true ∧
            0 ≤ r.year_month ∧ r.year_month ≤ 3))).filter
          (fun r => decide (r.lob = "EL")))) :=
  ⟨⟨by decide,
      c1_completeness_corrected.2.2.2.1 scenarioRows (mkMonth 2024 1)
        (mkMonth 2024 3) (mkMonth 2024 2) (by decide) (by decide) (by decide)⟩,
    c1_completeness_corrected.2.2.2.2.1 scenarioRows ["Represented"]
      (mkMonth 2024 1) (mkMonth 2024 3) (mkMonth 2024 2) "Represented"
      (by decide) (by decide) (by decide) (by decide) (by decide),
    c1_completeness_corrected.2.2.2.2.2 [pEL] ["EL"] 0 3 "EL" (by decide)⟩

/-- C7: `_complete_months_per_lob` collapses duplicate `(lob, month)` rows
into exactly one row whose count metrics are the plain sums and whose
`general_damages` is the settled-claims-weighted mean of the per-row values,
defined as exactly 0 when the settled total is 0. -/
theorem c7_duplicate_collapse (rows : List PortalRow) (L : String) (m : ℕ)
    (h : ∃ x ∈ rows, x.lob = L ∧ x.year_month = m) :
    ((completeMonthsPerLob rows).filter (fun r => decide (r.lob = L))).filter
        (fun r => decide (r.year_month = m)) =
      [{ lob := L, year_month := m
         new_claim := ((rows.filter
             (fun r => decide (r.lob = L ∧ r.year_month = m))).map
           (·.new_claim)).sum
         stage_1_exit := ((rows.filter
             (fun r => decide (r.lob = L ∧ r.year_month = m))).map
           (·.stage_1_exit)).sum
         stage_2_exit := ((rows.filter
             (fun r => decide (r.lob = L ∧ r.year_month = m))).map
           (·.stage_2_exit)).sum
         exit_process := ((rows.filter
             (fun r => decide (r.lob = L ∧ r.year_month = m))).map
           (·.exit_process)).sum
         court_pack := ((rows.filter
             (fun r => decide (r.lob = L ∧ r.year_month = m))).map
           (·.court_pack)).sum
         settled_claims := ((rows.filter
             (fun r => decide (r.lob = L ∧ r.year_month = m))).map
           (·.settled_claims)).sum
         general_damages :=
           if ((rows.filter
               (fun r => decide (r.lob = L ∧ r.year_month = m))).map
             (·.settled_claims)).sum = 0 then 0
           else ((rows.filter
               (fun r => decide (r.lob = L ∧ r.year_month = m))).map
               (fun r => r.general_damages * (r.settled_claims : ℚ))).sum /
             ((((rows.filter
                 (fun r => decide (r.lob = L ∧ r.year_month = m))).map
               (·.settled_claims)).sum : ℤ) : ℚ) }] := by
  obtain ⟨x, hx, hxl, hxm⟩ := h
  rw [completeMonths_filter_lob rows L ⟨x, hx, hxl⟩]
  have hg : x ∈ rows.filter (fun r => decide (r.lob = L)) :=
    List.mem_filter.mpr ⟨hx, by simp [hxl]⟩
  rw [perLobComplete_filter_ym L _ m (mem_portalMonthsOf.mpr ⟨x, hg, hxm⟩)]
  refine congrArg (fun z => [z]) ?_
  simp only [collapseAt]
  rw [filter_lob_ym]

theorem c7_duplicate_collapse_witness :
    (∃ x ∈ dupRows, x.lob = "EL" ∧ x.year_month = 3) ∧
    ((completeMonthsPerLob dupRows).filter
        (fun r => decide (r.lob = "EL"))).filter
          (fun r => decide (r.year_month = 3)) =
      [{ lob := "EL", year_month := 3
         new_claim := ((dupRows.filter
             (fun r => decide (r.lob = "EL" ∧ r.year_month = 3))).map
           (·.new_claim)).sum
         stage_1_exit := ((dupRows.filter
             (fun r => decide (r.lob = "EL" ∧ r.year_month = 3))).map
           (·.stage_1_exit)).sum
         stage_2_exit := ((dupRows.filter
             (fun r => decide (r.lob = "EL" ∧ r.year_month = 3))).map
           (·.stage_2_exit)).sum
         exit_process := ((dupRows.filter
             (fun r => decide (r.lob = "EL" ∧ r.year_month = 3))).map
           (·.exit_process)).sum
         court_pack := ((dupRows.filter
             (fun r => decide (r.lob = "EL" ∧ r.year_month = 3))).map
           (·.court_pack)).sum
         settled_claims := ((dupRows.filter
             (fun r => decide (r.lob = "EL" ∧ r.year_month = 3))).map
           (·.settled_claims)).sum
         general_damages :=
           if ((dupRows.filter
               (fun r => decide (r.lob = "EL" ∧ r.year_month = 3))).map
             (·.settled_claims)).sum = 0 then 0
           else ((dupRows.filter
               (fun r => decide (r.lob = "EL" ∧ r.year_month = 3))).map
               (fun r => r.general_damages * (r.settled_claims : ℚ))).sum /
             ((((dupRows.filter
                 (fun r => decide (r.lob = "EL" ∧ r.year_month = 3))).map
               (·.settled_claims)).sum : ℤ) : ℚ) }] :=
  ⟨by decide, c7_duplicate_collapse dupRows "EL" 3 (by decide)⟩

/-- C8: for a duplicate-free category selection covering every row's
category, summing the per-category series values over the categories equals
the combined series value, month by month, for each additive metric; the
same does not hold for the ratio metric, as the concrete instance shows
(per-category weighted averages sum to 400 while the combined series value is
200). -/
theorem c8_roundtrip :
    (∀ (rows : List OicRow) (sel : List String) (s e m : ℕ),
        sel.Nodup → (∀ r ∈ rows, r.representation_status ∈ sel) →
        s ≤ m → m ≤ e →
        ((((catSeries rows sel s e).filter
              (fun r => decide (r.year_month = m))).map (·.claims_volume)).sum =
            (((combinedSeries rows s e).filter
              (fun r => decide (r.year_month = m))).map (·.claims_volume)).sum ∧
          (((catSeries rows sel s e).filter
              (fun r => decide (r.year_month = m))).map
            (·.settlement_volume)).sum =
            (((combinedSeries rows s e).filter
              (fun r => decide (r.year_month = m))).map
              (·.settlement_volume)).sum ∧
          (((catSeries rows sel s e).filter
              (fun r => decide (r.year_month = m))).map
            (·.total_settlement_value)).sum =
            (((combinedSeries rows s e).filter
              (fun r => decide (r.year_month = m))).map
              (·.total_settlement_value)).sum)) ∧
    (((catSeries ratioRows ["A", "B"] 0 0).map
        (·.weighted_avg_settlement)).sum = 400 ∧
      ((combinedSeries ratioRows 0 0).map (·.weighted_avg_settlement)).sum = 200 ∧
      (400 : ℚ) ≠ 200) := by
  constructor
  · intro rows sel s e m hnd hcov hsm hme
    have hmr : m ∈ monthRange s e := mem_monthRange.mpr ⟨hsm, hme⟩
    have cat_eval : (catSeries rows sel s e).filter
        (fun r => decide (r.year_month = m)) =
        sel.map fun c => addWeightedAvgCat (catTotals rows (m, c)) := by
      rw [catSeries_eq]
      exact flatMap_filter_key (monthRange s e) (nodup_monthRange s e) _
        CatAggRow.year_month
        (fun k x hx => by
          obtain ⟨c, hc, rfl⟩ := List.mem_map.mp hx
          rfl)
        m hmr
    have comb_eval : (combinedSeries rows s e).filter
        (fun r => decide (r.year_month = m)) =
        [addWeightedAvg (monthTotals rows m)] := by
      rw [combinedSeries_eq, map_eq_flatMap_singleton]
      exact flatMap_filter_key (monthRange s e) (nodup_monthRange s e) _
        AggRow.year_month
        (fun k x hx => by
          rcases List.mem_singleton.mp hx with rfl
          rfl)
        m hmr
    refine ⟨?_, ?_, ?_⟩
    · rw [cat_eval, comb_eval, List.map_map]
      refine Eq.trans ?_ (Eq.trans (sum_over_sel sel hnd rows m
        (fun r hr _ => hcov r hr) (fun r => r.claims_volume)) ?_)
      · exact congrArg List.sum (List.map_congr_left fun c _ => rfl)
      · simp [addWeightedAvg, monthTotals]
    · rw [cat_eval, comb_eval, List.map_map]
      refine Eq.trans ?_ (Eq.trans (sum_over_sel sel hnd rows m
        (fun r hr _ => hcov r hr) (fun r => r.settlement_volume)) ?_)
      · exact congrArg List.sum (List.map_congr_left fun c _ => rfl)
      · simp [addWeightedAvg, monthTotals]
    · rw [cat_eval, comb_eval, List.map_map]
      refine Eq.trans ?_ (Eq.trans (sum_over_sel sel hnd rows m
        (fun r hr _ => hcov r hr) (fun r => r.total_settlement_value)) ?_)
      · exact congrArg List.sum (List.map_congr_left fun c _ => rfl)
      · simp [addWeightedAvg, monthTotals]
  · refine ⟨?_, ?_, by norm_num⟩
    · rw [catSeries_eq, show monthRange 0 0 = [0] from by decide]
      norm_num [catTotals, addWeightedAvgCat, ratioRows, exA, exB,
        (by decide : ¬("B" : String) = "A"), (by decide : ¬("A" : String) = "B")]
    · rw [combinedSeries_eq, show monthRange 0 0 = [0] from by decide]
      norm_num [monthTotals, addWeightedAvg, ratioRows, exA, exB]

theorem c8_roundtrip_witness :
    (["A", "B"] : List String).Nodup ∧
    (∀ r ∈ ratioRows, r.representation_status ∈ ["A", "B"]) ∧
    (0 : ℕ) ≤ 0 ∧
    ((((catSeries ratioRows ["A", "B"] 0 0).filter
          (fun r => decide (r.year_month = 0))).map (·.claims_volume)).sum =
        (((combinedSeries ratioRows 0 0).filter
          (fun r => decide (r.year_month = 0))).map (·.claims_volume)).sum ∧
      (((catSeries ratioRows ["A", "B"] 0 0).filter
          (fun r => decide (r.year_month = 0))).map (·.settlement_volume)).sum =
        (((combinedSeries ratioRows 0 0).filter
          (fun r => decide (r.year_month = 0))).map (·.settlement_volume)).sum ∧
      (((catSeries ratioRows ["A", "B"] 0 0).filter
          (fun r => decide (r.year_month = 0))).map
        (·.total_settlement_value)).sum =
        (((combinedSeries ratioRows 0 0).filter
          (fun r => decide (r.year_month = 0))).map
          (·.total_settlement_value)).sum) :=
  ⟨by decide, by decide, le_refl 0,
    c8_roundtrip.1 ratioRows ["A", "B"] 0 0 0 (by decide) (by decide)
      (le_refl 0) (le_refl 0)⟩

theorem c6_invalid_range_witness :
    (2 : ℕ) < 5 ∧ combinedSeries scenarioRows 5 2 = [] ∧
    catSeries scenarioRows ["Represented"] 5 2 = [] ∧
    litigationSeries scenarioRows 5 2 = [] ∧
    portalSeries dupRows ["EL"] 5 2 = [] :=
  ⟨by decide,
    (c6_invalid_range_corrected scenarioRows dupRows ["Represented"] ["EL"] 5 2
      (by decide)).1,
    (c6_invalid_range_corrected scenarioRows dupRows ["Represented"] ["EL"] 5 2
      (by decide)).2.1,
    (c6_invalid_range_corrected scenarioRows dupRows ["Represented"] ["EL"] 5 2
      (by decide)).2.2.1,
    (c6_invalid_range_corrected scenarioRows dupRows ["Represented"] ["EL"] 5 2
      (by decide)).2.2.2⟩

end OicDashboard
